import Mathlib

/-!
Verification of the PinShop e-commerce backend (Django, `backend/api/`).

The Python source is shallowly embedded: the catalog store is a `List Produit`,
Django querysets become list filters and sorts, monetary `Decimal`/`float`
values become `Rat`, auto-managed timestamps become explicit `Nat` parameters,
and HTTP responses become sum types. Field and function names follow the
source (`models.py`, `views.py`, `admin.py`, `serializers.py`).
-/

/- ===== Python value model for `admin.to_float` ===== -/

/-- A Python value as received by `admin.to_float`: `None`, a native `int`,
a native `float`, a `decimal.Decimal`, or a `str`. -/
inductive PyValue where
  | none
  | int (n : Int)
  | float (q : Rat)
  | decimal (q : Rat)
  | str (s : String)
deriving DecidableEq

/-- Digits to a natural number, most significant first (models positional
decimal notation as read by Python's `float`). -/
def digitsVal (l : List Char) : Nat :=
  l.foldl (fun a c => a * 10 + (c.toNat - 48)) 0

/-- Leading/trailing-whitespace strip on a character list (models Python
`str.strip()` and the whitespace tolerance of the builtin `float`). -/
def pyStrip (l : List Char) : List Char :=
  ((l.dropWhile Char.isWhitespace).reverse.dropWhile Char.isWhitespace).reverse

/-- Models the decimal-notation fragment of Python's builtin `float(str)`:
optional sign, integer digits, optional `.` with fractional digits; at least
one digit overall; anything else fails. Exponent/inf/nan notation, which the
repository never feeds it, is out of the modelled fragment. -/
def pyFloat (s : String) : Option Rat :=
  let cs := pyStrip s.data
  let signRest : Int × List Char :=
    match cs with
    | '-' :: t => (-1, t)
    | '+' :: t => (1, t)
    | _ => (1, cs)
  let sign := signRest.1
  let intPart := signRest.2.takeWhile Char.isDigit
  let rest := signRest.2.dropWhile Char.isDigit
  match rest with
  | [] =>
      if intPart.isEmpty then Option.none
      else some ((sign : Rat) * (digitsVal intPart : Rat))
  | '.' :: frac =>
      if frac.all Char.isDigit && !(intPart.isEmpty && frac.isEmpty) then
        some ((sign : Rat) *
          ((digitsVal intPart : Rat) + (digitsVal frac : Rat) / (10 ^ frac.length)))
      else Option.none
  | _ => Option.none

/-- `admin.to_float`: `None` or `''` give `0.0`; native `int`/`float` and
`decimal.Decimal` are cast directly; any other value is stringified, the `€`
signs are removed, commas become periods, whitespace is stripped, and the
result is parsed as a float, any failure giving `0.0`. -/
def to_float : PyValue → Rat
  | .none => 0
  | .int n => (n : Rat)
  | .float q => q
  | .decimal q => q
  | .str s =>
      if s = "" then 0
      else
        let cleaned : List Char :=
          pyStrip ((s.data.filter (fun c => c ≠ '€')).map
            (fun c => if c = ',' then '.' else c))
        match pyFloat ⟨cleaned⟩ with
        | some q => q
        | Option.none => 0

/- ===== Data model (`models.py`) ===== -/

/-- `models.Produit`, the scalar fields. `prix`, `ancien_prix` and `reduction`
are `Decimal` columns, embedded as `Rat`; `couleur` and `taille` are JSON
lists of strings; `seller` is the owning seller's id; `created_at`
(`auto_now_add`) and `updated_at` (`auto_now`) are timestamps embedded as
`Nat`. -/
structure Produit where
  id : Nat
  nom : String
  status : String
  prix : Rat
  couleur : List String
  categorie : String
  tags : String
  description : String
  seller : Nat
  ancien_prix : Option Rat
  likes : Nat
  reduction : Rat
  taille : List String
  quantite : Nat
  created_at : Nat
  updated_at : Nat
deriving DecidableEq

/-- `Produit.CATEGORIE_CHOICES` from `models.py`. -/
def CATEGORIE_CHOICES : List (String × String) :=
  [("tendances", "Tendances"), ("nouveautés", "Nouveautés"),
   ("populaire", "Populaire"), ("promotion", "Promotion"), ("chere", "Chère")]

/-- `Produit.prix_avec_reduction` (`models.py`): if the discount is positive
the price is scaled by `1 - reduction/100`, otherwise the base price is
returned unchanged. -/
def prix_avec_reduction (p : Produit) : Rat :=
  if p.reduction > 0 then p.prix * (1 - p.reduction / 100) else p.prix

/- ===== Catalog query engine (`views.py`) ===== -/

/-- Lower-casing of a string's characters, for Django's case-insensitive
lookups (`__icontains`, `__istartswith`). -/
def toLowerList (s : String) : List Char := s.data.map Char.toLower

/-- Is `needle` a contiguous infix of `hay`? (substring containment, the
semantics of SQL `LIKE %x%` behind `__icontains`). -/
def isInfixOfList (needle : List Char) : List Char → Bool
  | [] => needle.isEmpty
  | c :: rest => needle.isPrefixOf (c :: rest) || isInfixOfList needle rest

/-- Django `field__icontains=needle`: case-insensitive substring match. -/
def icontains (hay needle : String) : Bool :=
  isInfixOfList (toLowerList needle) (toLowerList hay)

/-- Django `field__istartswith=pfx`: case-insensitive prefix match. -/
def istartswith (hay pfx : String) : Bool :=
  (toLowerList pfx).isPrefixOf (toLowerList hay)

/-- The default ordering `-created_at` (newest first), used by
`order_by('-created_at')` and by `Produit.Meta.ordering`. -/
def createdDesc (a b : Produit) : Prop := b.created_at ≤ a.created_at

instance : DecidableRel createdDesc := fun _ _ => Nat.decLe _ _

instance : IsTotal Produit createdDesc := ⟨fun a b => Nat.le_total b.created_at a.created_at⟩

instance : IsTrans Produit createdDesc :=
  ⟨fun _ _ _ hab hbc => Nat.le_trans hbc hab⟩

/-- `order_by('-created_at')` on a queryset, embedded as a stable sort. -/
def sortCreatedDesc (l : List Produit) : List Produit :=
  List.insertionSort createdDesc l

/-- `views.api_produits` (root endpoint): the verified catalog, newest first
(`Produit.objects.filter(status='verified').order_by('-created_at')`). -/
def api_produits (store : List Produit) : List Produit :=
  sortCreatedDesc (store.filter (fun p => p.status == "verified"))

/-- `views.liste_produits` (`GET /produits/`): `Produit.objects.all()`
ordered newest first — note: no status filter in the source. -/
def liste_produits (store : List Produit) : List Produit :=
  sortCreatedDesc store

/-- The primary predicate of `views.recherche_produits`:
`Q(nom__icontains=text) | Q(tags__icontains=text) |
Q(description__icontains=text)` conjoined with `status='verified'`. -/
def rechercheMatch (text : String) (p : Produit) : Bool :=
  (icontains p.nom text || icontains p.tags text ||
    icontains p.description text) && p.status == "verified"

/-- The fallback predicate of `views.recherche_produits`:
`Q(nom__istartswith=prefix) | Q(tags__icontains=prefix)` conjoined with
`status='verified'`, where the argument is the 4-character query head. -/
def rechercheFallbackMatch (pfx4 : String) (p : Produit) : Bool :=
  (istartswith p.nom pfx4 || icontains p.tags pfx4) && p.status == "verified"

/-- `views.recherche_produits` (`GET /recherche/{text}/`): primary OR-match
over name/tags/description scoped to verified; if that is empty and
`len(text) >= 4`, retry with `text[:4]` as name-prefix / tags-substring.
The store is duplicate-free, so `.distinct()` is the identity here. -/
def recherche_produits (store : List Produit) (text : String) : List Produit :=
  let produits := store.filter (rechercheMatch text)
  if produits = [] ∧ 4 ≤ text.data.length then
    store.filter (rechercheFallbackMatch ⟨text.data.take 4⟩)
  else produits

/-- `views.produits_par_categorie` response: a 400 carrying the valid
category keys, or the product page. -/
inductive CategorieResponse where
  | error400 (categories_disponibles : List String)
  | ok (produits : List Produit)
deriving DecidableEq

/-- `views.produits_par_categorie` (`GET /categorie/{nom}/`): an
unrecognized category yields a 400 with `categories_disponibles`; a valid
one yields the verified products of the category, newest first. -/
def produits_par_categorie (store : List Produit) (nom_categorie : String) :
    CategorieResponse :=
  if nom_categorie ∈ CATEGORIE_CHOICES.map Prod.fst then
    CategorieResponse.ok (sortCreatedDesc (store.filter
      (fun p => p.categorie == nom_categorie && p.status == "verified")))
  else CategorieResponse.error400 (CATEGORIE_CHOICES.map Prod.fst)

/-- The text a JSON list column holds in the database, against which
`couleur__icontains` / `taille__icontains` do substring matching. -/
def jsonListText (l : List String) : String :=
  "[" ++ String.intercalate ", " (l.map (fun s => "\"" ++ s ++ "\"")) ++ "]"

/-- The query parameters of `views.trier_produits` (`GET /trie/`);
`request.GET.get` yields `Option.none` for an absent parameter. -/
structure TrierParams where
  couleur : Option String
  prix_min : Option String
  prix_max : Option String
  taille : Option String
  categorie : Option String
  ordre : Option String
deriving DecidableEq

/-- `if couleur: produits = produits.filter(couleur__icontains=couleur)`:
absent or empty parameter (Python falsy) leaves the queryset unchanged. -/
def filtreCouleur (o : Option String) (produits : List Produit) :
    List Produit :=
  match o with
  | Option.none => produits
  | some c =>
      if c = "" then produits
      else produits.filter (fun p => icontains (jsonListText p.couleur) c)

/-- `if prix_min: try: produits = produits.filter(prix__gte=float(prix_min))
except ValueError: pass` — absent/empty parameter skips the filter, and an
unparseable one is silently dropped. -/
def filtrePrixMin (o : Option String) (produits : List Produit) :
    List Produit :=
  match o with
  | Option.none => produits
  | some s =>
      if s = "" then produits
      else
        match pyFloat s with
        | some v => produits.filter (fun p => decide (v ≤ p.prix))
        | Option.none => produits

/-- The symmetric `prix__lte=float(prix_max)` filter with the same leniency. -/
def filtrePrixMax (o : Option String) (produits : List Produit) :
    List Produit :=
  match o with
  | Option.none => produits
  | some s =>
      if s = "" then produits
      else
        match pyFloat s with
        | some v => produits.filter (fun p => decide (p.prix ≤ v))
        | Option.none => produits

/-- `if taille: produits = produits.filter(taille__icontains=taille)`. -/
def filtreTaille (o : Option String) (produits : List Produit) :
    List Produit :=
  match o with
  | Option.none => produits
  | some t =>
      if t = "" then produits
      else produits.filter (fun p => icontains (jsonListText p.taille) t)

/-- `if categorie: produits = produits.filter(categorie=categorie)`. -/
def filtreCategorie (o : Option String) (produits : List Produit) :
    List Produit :=
  match o with
  | Option.none => produits
  | some c =>
      if c = "" then produits
      else produits.filter (fun p => p.categorie == c)

/-- The sort-key allow-list of `views.trier_produits`. -/
def ORDRE_ALLOWLIST : List String :=
  ["prix", "-prix", "nom", "-nom", "created_at", "-created_at"]

/-- The comparison behind `order_by(ordre)` for each allow-listed key; the
catch-all arm is the `-created_at` ordering. -/
def ordreLeB (ordre : String) (a b : Produit) : Bool :=
  match ordre with
  | "prix" => decide (a.prix ≤ b.prix)
  | "-prix" => decide (b.prix ≤ a.prix)
  | "nom" => decide (a.nom ≤ b.nom)
  | "-nom" => decide (b.nom ≤ a.nom)
  | "created_at" => decide (a.created_at ≤ b.created_at)
  | _ => decide (b.created_at ≤ a.created_at)

/-- `queryset.order_by(ordre)`, embedded as a stable sort by the key's
comparison. -/
def order_by (ordre : String) (produits : List Produit) : List Produit :=
  List.insertionSort (fun a b => ordreLeB ordre a b = true) produits

/-- The filter pipeline of `views.trier_produits` before sorting: scope to
verified, then apply the optional couleur / prix_min / prix_max / taille /
categorie filters in source order. -/
def filteredTrier (store : List Produit) (pa : TrierParams) : List Produit :=
  filtreCategorie pa.categorie (filtreTaille pa.taille
    (filtrePrixMax pa.prix_max (filtrePrixMin pa.prix_min
      (filtreCouleur pa.couleur
        (store.filter (fun p => p.status == "verified"))))))

/-- `views.trier_produits` (`GET /trie/`): filter pipeline, then
`ordre = request.GET.get('ordre', '-created_at')`, sorted by `ordre` when it
is allow-listed and by `-created_at` otherwise. -/
def trier_produits (store : List Produit) (pa : TrierParams) : List Produit :=
  let ordre := pa.ordre.getD "-created_at"
  if ordre ∈ ORDRE_ALLOWLIST then order_by ordre (filteredTrier store pa)
  else order_by "-created_at" (filteredTrier store pa)

/- ===== Moderation and bulk actions ===== -/

/-- The per-product body of the loop in `ProduitAdmin.appliquer_promotion`:
a product with `reduction == 0` gets `ancien_prix := prix`,
`reduction := 20`, `categorie := 'promotion'`; any other product is left
untouched. -/
def promotionOne (p : Produit) : Produit :=
  if p.reduction = 0 then
    { p with
      ancien_prix := some p.prix,
      reduction := 20,
      categorie := "promotion" }
  else p

/-- `ProduitAdmin.appliquer_promotion`: walk the selection, promote each
product whose discount is exactly 0, and count the products modified. -/
def appliquer_promotion : List Produit → List Produit × Nat
  | [] => ([], 0)
  | p :: rest =>
      let r := appliquer_promotion rest
      if p.reduction = 0 then
        ({ p with
            ancien_prix := some p.prix,
            reduction := 20,
            categorie := "promotion" } :: r.1, r.2 + 1)
      else (p :: r.1, r.2)

/-- `Produit.save()` with `updated_at = models.DateTimeField(auto_now=True)`:
every save stamps the current time into `updated_at`. -/
def saveProduit (now : Nat) (p : Produit) : Produit :=
  { p with updated_at := now }

/-- `views.verifier_produit` (`PUT/PATCH /verifier-produit/{id}/`): look the
product up by id (404 as `Option.none` when absent), set its status to
`'verified'`, save it (stamping `updated_at`), and return the updated
entity together with the updated store. -/
def verifier_produit (store : List Produit) (i : Nat) (now : Nat) :
    List Produit × Option Produit :=
  match store.find? (fun p => p.id == i) with
  | Option.none => (store, Option.none)
  | some p =>
      let p2 := saveProduit now { p with status := "verified" }
      (store.map (fun q => if q.id == i then p2 else q), some p2)

/- ===== Claim C1 ===== -/

/-- Claim C1: for base price `p ≥ 0` and discount `d ∈ [0,100]`,
`prix_avec_reduction` equals `p` when `d = 0`, equals `p * (1 - d/100)` when
`d > 0`, and with the price fixed it is monotonically non-increasing in the
discount. -/
theorem c1_prix_avec_reduction_spec (P : Produit) (d₁ d₂ : Rat)
    (hp : 0 ≤ P.prix) (h0 : 0 ≤ d₁) (h12 : d₁ ≤ d₂) (_hd : d₂ ≤ 100) :
    (P.reduction = 0 → prix_avec_reduction P = P.prix) ∧
    (0 < P.reduction →
      prix_avec_reduction P = P.prix * (1 - P.reduction / 100)) ∧
    prix_avec_reduction { P with reduction := d₂ } ≤
      prix_avec_reduction { P with reduction := d₁ } := by
  refine ⟨fun h => by simp [prix_avec_reduction, h], fun h => by
    simp [prix_avec_reduction, h], ?_⟩
  simp only [prix_avec_reduction]
  rcases lt_or_eq_of_le h0 with h1 | h1
  · have h2 : (0 : Rat) < d₂ := lt_of_lt_of_le h1 h12
    simp only [h1, h2, if_pos]
    have : 0 ≤ P.prix * (d₂ - d₁) := mul_nonneg hp (by linarith)
    nlinarith
  · rcases lt_or_eq_of_le (h1 ▸ h12 : (0:Rat) ≤ d₂) with h2 | h2
    · simp only [h2, if_pos, ← h1]
      norm_num
      have : 0 ≤ P.prix * d₂ := mul_nonneg hp (le_of_lt h2)
      nlinarith
    · simp [← h1, ← h2]

/-- A concrete verified product with base price 200 and discount 0, used to
instantiate hypothesis-bearing theorems. -/
def produitC1 : Produit :=
  { id := 1, nom := "A", status := "verified", prix := 200,
    couleur := [], categorie := "tendances", tags := "", description := "",
    seller := 1, ancien_prix := Option.none, likes := 0, reduction := 0,
    taille := [], quantite := 1, created_at := 0, updated_at := 0 }

/-- Witness for C1 at a concrete product with price 200 and discounts 0, 50. -/
theorem c1_witness :
    prix_avec_reduction produitC1 = 200 ∧
    prix_avec_reduction { produitC1 with reduction := 50 } ≤
      prix_avec_reduction { produitC1 with reduction := 0 } := by
  have h := c1_prix_avec_reduction_spec produitC1 0 50
    (by norm_num [produitC1]) le_rfl (by norm_num) (by norm_num)
  exact ⟨h.1 rfl, h.2.2⟩

/- ===== Claim C2 ===== -/

/-- Claim C2: `to_float` is total by construction (every branch returns a
value) and satisfies the documented cases: `None ↦ 0.0`, `"" ↦ 0.0`,
`"abc" ↦ 0.0`, native numerics cast directly, and `"12,50 €" ↦ 12.50` after
currency/whitespace stripping and comma normalisation. -/
theorem c2_to_float_spec :
    to_float .none = 0 ∧
    to_float (.str "") = 0 ∧
    to_float (.str "abc") = 0 ∧
    (∀ n : Int, to_float (.int n) = (n : Rat)) ∧
    (∀ q : Rat, to_float (.float q) = q) ∧
    (∀ q : Rat, to_float (.decimal q) = q) ∧
    to_float (.str "12,50 €") = 25 / 2 := by
  refine ⟨rfl, rfl, by decide, fun n => rfl, fun q => rfl, fun q => rfl, ?_⟩
  have h : to_float (.str "12,50 €") =
      ((1 : Int) : Rat) *
        (((12 : Nat) : Rat) + ((50 : Nat) : Rat) / (10 : Rat) ^ (2 : Nat)) := by
    rfl
  rw [h]; norm_num

/- ===== Claim C3 ===== -/

/-- A concrete unverified product. -/
def produitC3 : Produit := { produitC1 with id := 3, status := "unverified" }

/-- Counterexample to C3 as stated: the public `GET /produits/` handler
(`liste_produits`) queries `Produit.objects.all()` with no status filter, so
on a store holding one unverified product the listing contains it. -/
theorem c3_counterexample :
    produitC3 ∈ liste_produits [produitC3] ∧ produitC3.status = "unverified" := by
  decide

/-- Claim C3 amended: the root catalog endpoint `api_produits` returns only
verified products drawn from the store, but `liste_produits`
(`GET /produits/`) returns every product of the store regardless of status. -/
theorem c3_listing_scope (store : List Produit) (p : Produit) :
    (p ∈ api_produits store → p.status = "verified" ∧ p ∈ store) ∧
    (p ∈ store → p ∈ liste_produits store) := by
  constructor
  · intro hp
    rw [api_produits, sortCreatedDesc, List.mem_insertionSort] at hp
    rw [List.mem_filter] at hp
    exact ⟨by simpa using hp.2, hp.1⟩
  · intro hp
    rw [liste_produits, sortCreatedDesc, List.mem_insertionSort]
    exact hp

/-- Witness for C3 (amended) at the singleton verified store. -/
theorem c3_witness : produitC1.status = "verified" ∧ produitC1 ∈ [produitC1] :=
  (c3_listing_scope [produitC1] produitC1).1 (by decide)

/- ===== Claim C4 ===== -/

/-- Claim C4: the primary search result is exactly the verified products
matching the query case-insensitively in name, tags or description (OR, each
product once); the fallback runs if and only if the primary result is empty
and the query has at least 4 characters, in which case the result is exactly
the verified products whose name starts with the 4-character query head or
whose tags contain it; an empty primary result with a shorter query yields
the empty result. -/
theorem c4_recherche_spec (store : List Produit) (q : String) :
    (∀ p, p ∈ store.filter (rechercheMatch q) ↔
      p ∈ store ∧ p.status = "verified" ∧
        (icontains p.nom q = true ∨ icontains p.tags q = true ∨
          icontains p.description q = true)) ∧
    (store.filter (rechercheMatch q) ≠ [] →
      recherche_produits store q = store.filter (rechercheMatch q)) ∧
    (store.filter (rechercheMatch q) = [] → q.data.length < 4 →
      recherche_produits store q = []) ∧
    (store.filter (rechercheMatch q) = [] → 4 ≤ q.data.length →
      recherche_produits store q =
        store.filter (rechercheFallbackMatch ⟨q.data.take 4⟩) ∧
      ∀ p, p ∈ store.filter (rechercheFallbackMatch ⟨q.data.take 4⟩) ↔
        p ∈ store ∧ p.status = "verified" ∧
          (istartswith p.nom ⟨q.data.take 4⟩ = true ∨
            icontains p.tags ⟨q.data.take 4⟩ = true)) := by
  refine ⟨?_, ?_, ?_, ?_⟩
  · intro p
    simp only [List.mem_filter, rechercheMatch, Bool.and_eq_true,
      Bool.or_eq_true, beq_iff_eq]
    tauto
  · intro h
    simp only [recherche_produits]
    rw [if_neg
      (fun hc : store.filter (rechercheMatch q) = [] ∧ 4 ≤ q.data.length =>
        h hc.1)]
  · intro h hlen
    simp only [recherche_produits]
    rw [if_neg
      (fun hc : store.filter (rechercheMatch q) = [] ∧ 4 ≤ q.data.length =>
        Nat.not_le_of_lt hlen hc.2)]
    exact h
  · intro h hlen
    refine ⟨?_, ?_⟩
    · simp only [recherche_produits]
      rw [if_pos ⟨h, hlen⟩]
    · intro p
      simp only [List.mem_filter, rechercheFallbackMatch, Bool.and_eq_true,
        Bool.or_eq_true, beq_iff_eq]
      tauto

/-- Witness for C4: on a one-product store, the 2-character query "xy" has no
primary match and triggers no fallback. -/
theorem c4_witness : recherche_produits [produitC1] "xy" = [] :=
  (c4_recherche_spec [produitC1] "xy").2.2.1 (by decide) (by decide)

/- ===== Claim C5 ===== -/

/-- `appliquer_promotion` promotes pointwise and counts the products whose
discount was exactly 0. -/
theorem appliquer_promotion_eq (l : List Produit) :
    appliquer_promotion l =
      (l.map promotionOne,
        (l.filter (fun p => decide (p.reduction = 0))).length) := by
  induction l with
  | nil => rfl
  | cons p rest ih =>
      simp only [appliquer_promotion, ih, List.map_cons, List.filter_cons]
      by_cases h : p.reduction = 0 <;> simp [promotionOne, h]

/-- On a selection where no product has discount 0, `appliquer_promotion`
does nothing and reports 0. -/
theorem appliquer_promotion_of_none {l : List Produit}
    (h : ∀ p ∈ l, p.reduction ≠ 0) : appliquer_promotion l = (l, 0) := by
  induction l with
  | nil => rfl
  | cons p rest ih =>
      simp only [appliquer_promotion,
        ih (fun q hq => h q (List.mem_cons_of_mem _ hq))]
      simp [h p (List.mem_cons_self _ _)]

/-- Every product in the output of `appliquer_promotion` has a nonzero
discount. -/
theorem appliquer_promotion_reduction_ne {l : List Produit} {p : Produit}
    (hp : p ∈ (appliquer_promotion l).1) : p.reduction ≠ 0 := by
  rw [appliquer_promotion_eq] at hp
  simp only [List.mem_map] at hp
  obtain ⟨q, _, rfl⟩ := hp
  by_cases h : q.reduction = 0
  · simp [promotionOne, h]
  · simp [promotionOne, h]

/-- Claim C5: bulk promotion sets `ancien_prix := prix`, `reduction := 20`,
`categorie := 'promotion'` exactly on the products with discount 0, skips
products already discounted, reports the number modified, and a second
application to the result modifies nothing and reports 0. -/
theorem c5_appliquer_promotion_spec (l : List Produit) :
    (appliquer_promotion l).1 = l.map promotionOne ∧
    (appliquer_promotion l).2 =
      (l.filter (fun p => decide (p.reduction = 0))).length ∧
    (∀ p ∈ l, p.reduction = 0 → promotionOne p =
      { p with
        ancien_prix := some p.prix,
        reduction := 20,
        categorie := "promotion" }) ∧
    (∀ p ∈ l, 0 < p.reduction → promotionOne p = p) ∧
    appliquer_promotion (appliquer_promotion l).1 =
      ((appliquer_promotion l).1, 0) := by
  refine ⟨by rw [appliquer_promotion_eq], by rw [appliquer_promotion_eq],
    ?_, ?_, ?_⟩
  · intro p _ h
    simp [promotionOne, h]
  · intro p _ h
    simp [promotionOne, ne_of_gt h]
  · exact appliquer_promotion_of_none
      (fun p hp => appliquer_promotion_reduction_ne hp)

/-- Witness for C5 on the singleton selection holding the discount-0 product
`produitC1`: it is promoted, and re-applying promotion changes nothing. -/
theorem c5_witness :
    promotionOne produitC1 =
      { produitC1 with
        ancien_prix := some produitC1.prix,
        reduction := 20,
        categorie := "promotion" } ∧
    appliquer_promotion (appliquer_promotion [produitC1]).1 =
      ((appliquer_promotion [produitC1]).1, 0) := by
  have h := c5_appliquer_promotion_spec [produitC1]
  exact ⟨h.2.2.1 produitC1 (by decide) (by decide), h.2.2.2.2⟩

/- ===== Claim C6 ===== -/

/-- A concrete already-verified product with `updated_at = 0`. -/
def produitC6 : Produit :=
  { produitC1 with id := 6, status := "verified", updated_at := 0 }

/-- Counterexample to C6 as stated: verifying the already-verified
`produitC6` at time 5 returns a product whose `updated_at` moved from 0 to 5
— `save()` always stamps the `auto_now` field, so the call is not free of
observable change. -/
theorem c6_counterexample :
    (verifier_produit [produitC6] 6 5).2 =
      some { produitC6 with updated_at := 5 } ∧
    ({ produitC6 with updated_at := 5 } : Produit) ≠ produitC6 := by
  decide

/-- Claim C6 amended: `verifier_produit` returns a not-found signal when no
product has the id; otherwise it returns the entity with status
`'verified'` and `updated_at` restamped, and on an already-verified product
every field except the `auto_now` timestamp is unchanged (the status stays
`'verified'`). -/
theorem c6_verifier_spec (store : List Produit) (i now : Nat) :
    (store.find? (fun p => p.id == i) = Option.none →
      verifier_produit store i now = (store, Option.none)) ∧
    (∀ p, store.find? (fun p => p.id == i) = some p →
      (verifier_produit store i now).2 =
        some { p with status := "verified", updated_at := now } ∧
      ({ p with status := "verified", updated_at := now } : Produit).status =
        "verified" ∧
      (p.status = "verified" →
        ({ p with status := "verified", updated_at := now } : Produit) =
          { p with updated_at := now })) := by
  constructor
  · intro h
    simp only [verifier_produit, h]
  · intro p hp
    refine ⟨?_, rfl, ?_⟩
    · simp only [verifier_produit, hp, saveProduit]
    · intro hs
      rw [← hs]

/-- Witness for C6 (amended) on the already-verified `produitC6`. -/
theorem c6_witness :
    (verifier_produit [produitC6] 6 5).2 =
      some { produitC6 with status := "verified", updated_at := 5 } :=
  (((c6_verifier_spec [produitC6] 6 5).2 produitC6 (by decide)).1)

/- ===== Claim C7 ===== -/

/-- Claim C7: an unrecognized category makes `produits_par_categorie` fail
with the 400 response carrying the valid category keys (never an empty
success), and a valid category yields exactly the verified products of that
category, sorted newest first. -/
theorem c7_categorie_spec (store : List Produit) (c : String) :
    (c ∉ CATEGORIE_CHOICES.map Prod.fst →
      produits_par_categorie store c =
        CategorieResponse.error400 (CATEGORIE_CHOICES.map Prod.fst)) ∧
    (c ∈ CATEGORIE_CHOICES.map Prod.fst →
      produits_par_categorie store c =
        CategorieResponse.ok (sortCreatedDesc (store.filter
          (fun p => p.categorie == c && p.status == "verified"))) ∧
      (∀ p, p ∈ sortCreatedDesc (store.filter
          (fun p => p.categorie == c && p.status == "verified")) ↔
        p ∈ store ∧ p.categorie = c ∧ p.status = "verified") ∧
      List.Sorted createdDesc (sortCreatedDesc (store.filter
        (fun p => p.categorie == c && p.status == "verified")))) := by
  constructor
  · intro h
    rw [produits_par_categorie, if_neg h]
  · intro h
    refine ⟨by rw [produits_par_categorie, if_pos h], ?_, ?_⟩
    · intro p
      rw [sortCreatedDesc, List.mem_insertionSort, List.mem_filter]
      simp [Bool.and_eq_true, beq_iff_eq, and_assoc]
    · exact List.sorted_insertionSort createdDesc _

/-- Witness for C7 at the valid category "promotion" on a singleton store. -/
theorem c7_witness :
    produits_par_categorie [produitC1] "promotion" =
      CategorieResponse.ok (sortCreatedDesc ([produitC1].filter
        (fun p => p.categorie == "promotion" && p.status == "verified"))) :=
  ((c7_categorie_spec [produitC1] "promotion").2 (by decide)).1

/- ===== Claim C8 ===== -/

/-- The all-absent query-parameter record for `GET /trie/`. -/
def paramsNone : TrierParams :=
  { couleur := Option.none, prix_min := Option.none, prix_max := Option.none,
    taille := Option.none, categorie := Option.none, ordre := Option.none }

/-- Claim C8: `trier_produits` orders by the requested key exactly when it is
in the allow-list `{prix, -prix, nom, -nom, created_at, -created_at}`; any
other requested key silently falls back to the `-created_at` ordering, and an
absent key defaults to `-created_at`. -/
theorem c8_trier_ordre_spec (store : List Produit) (pa : TrierParams)
    (o : String) :
    (o ∈ ORDRE_ALLOWLIST →
      trier_produits store { pa with ordre := some o } =
        order_by o (filteredTrier store { pa with ordre := some o })) ∧
    (o ∉ ORDRE_ALLOWLIST →
      trier_produits store { pa with ordre := some o } =
        order_by "-created_at"
          (filteredTrier store { pa with ordre := some o })) ∧
    (pa.ordre = Option.none →
      trier_produits store pa =
        order_by "-created_at" (filteredTrier store pa)) := by
  refine ⟨?_, ?_, ?_⟩
  · intro h
    simp only [trier_produits, Option.getD_some]
    rw [if_pos h]
  · intro h
    simp only [trier_produits, Option.getD_some]
    rw [if_neg h]
  · intro h
    simp only [trier_produits, h, Option.getD_none]
    rw [if_pos (by decide)]

/-- Witness for C8: the key `malicious_field` is not allow-listed and falls
back to `-created_at`. -/
theorem c8_witness :
    trier_produits [produitC1] { paramsNone with ordre := some "malicious_field" } =
      order_by "-created_at"
        (filteredTrier [produitC1]
          { paramsNone with ordre := some "malicious_field" }) :=
  (c8_trier_ordre_spec [produitC1] paramsNone "malicious_field").2.1 (by decide)

/- ===== Claim C9 ===== -/

/-- Claim C9: an unparseable price bound is silently dropped — with a
malformed `prix_min` the whole `GET /trie/` result equals the result with no
minimum-price filter, the other filters still applying — and both price
bounds are inclusive (`__gte`/`__lte`): a product whose price equals the
bound is retained. -/
theorem c9_prix_filtre_spec (store : List Produit) (pa : TrierParams)
    (s : String) (produits : List Produit) :
    (pyFloat s = Option.none →
      filtrePrixMin (some s) produits = produits ∧
      trier_produits store { pa with prix_min := some s } =
        trier_produits store { pa with prix_min := Option.none }) ∧
    (∀ v, pyFloat s = some v → s ≠ "" →
      filtrePrixMin (some s) produits =
        produits.filter (fun p => decide (v ≤ p.prix)) ∧
      ∀ p ∈ produits, v ≤ p.prix → p ∈ filtrePrixMin (some s) produits) ∧
    (∀ v, pyFloat s = some v → s ≠ "" →
      filtrePrixMax (some s) produits =
        produits.filter (fun p => decide (p.prix ≤ v)) ∧
      ∀ p ∈ produits, p.prix ≤ v → p ∈ filtrePrixMax (some s) produits) := by
  refine ⟨?_, ?_, ?_⟩
  · intro h
    have hmin : ∀ x : List Produit, filtrePrixMin (some s) x = x := by
      intro x
      by_cases hs : s = "" <;> simp [filtrePrixMin, hs, h]
    refine ⟨hmin produits, ?_⟩
    simp only [trier_produits, filteredTrier]
    simp only [hmin]
    rfl
  · intro v hv hs
    refine ⟨by simp [filtrePrixMin, hs, hv], ?_⟩
    intro p hp hle
    simp only [filtrePrixMin, hs, hv, if_neg hs]
    exact List.mem_filter.mpr ⟨hp, by simpa using hle⟩
  · intro v hv hs
    refine ⟨by simp [filtrePrixMax, hs, hv], ?_⟩
    intro p hp hle
    simp only [filtrePrixMax, hs, hv, if_neg hs]
    exact List.mem_filter.mpr ⟨hp, by simpa using hle⟩

/-- Witness for C9: the malformed bound "abc" leaves the pipeline unchanged
on a singleton store. -/
theorem c9_witness :
    filtrePrixMin (some "abc") [produitC1] = [produitC1] ∧
    trier_produits [produitC1] { paramsNone with prix_min := some "abc" } =
      trier_produits [produitC1] { paramsNone with prix_min := Option.none } :=
  (c9_prix_filtre_spec [produitC1] paramsNone "abc" [produitC1]).1 (by decide)

/- ===== Claim C10 ===== -/

/-- The user payload handled by `serializers.UserSerializer` inside the two
registration serializers; the role flags may arrive with any values. -/
structure UserData where
  username : String
  email : String
  password : String
  is_seller : Bool
  is_client : Bool
deriving DecidableEq

/-- `SellerCreateSerializer.create`: before creating the `User`, the
serializer forces `user_data['is_seller'] = True` and
`user_data['is_client'] = False`, overriding anything the request carried. -/
def sellerCreateUser (user_data : UserData) : UserData :=
  { user_data with is_seller := true, is_client := false }

/-- `ClientCreateSerializer.create`: before creating the `User`, the
serializer forces `user_data['is_client'] = True` and
`user_data['is_seller'] = False`, overriding anything the request carried. -/
def clientCreateUser (user_data : UserData) : UserData :=
  { user_data with is_client := true, is_seller := false }

/-- Claim C10: whatever role flags the request supplies, seller registration
creates a user with `is_seller = true, is_client = false` and client
registration one with `is_client = true, is_seller = false`; registration
never produces a user with both flags equal. -/
theorem c10_registration_roles (u : UserData) :
    (sellerCreateUser u).is_seller = true ∧
    (sellerCreateUser u).is_client = false ∧
    (clientCreateUser u).is_client = true ∧
    (clientCreateUser u).is_seller = false ∧
    (sellerCreateUser u).is_seller ≠ (sellerCreateUser u).is_client ∧
    (clientCreateUser u).is_seller ≠ (clientCreateUser u).is_client := by
  simp [sellerCreateUser, clientCreateUser]
